import Mathlib

/-!
Shallow embedding of the zube-notifications client (project.go, zen.go)
and proofs about its specified behaviour.

Go values decoded from JSON (`interface\x7b\x7d`) are modelled by `JVal`;
the open preference map `UserPreference = map[string]interface\x7b\x7d` is
modelled as an association list preserving entry order. Machine integers
are modelled as `Int` (no overflow is relevant here), `time.Time` values
as Unix seconds (`Int`). HTTP transport, JSON decoding and RSA signing
are passed in as explicit oracle functions, so every definition stays
executable.
-/

namespace Zube

/-- Scalar JSON value as decoded by encoding/json into a Go interface
value. JSON numbers decode to float64 in Go; the claims only use
integral numbers, so they are carried as `Int`. -/
inductive JVal where
  | b (x : Bool)
  | n (x : Int)
  | s (x : String)
  | null
deriving Repr, DecidableEq

/-- UserPreference (project.go) is the open map of channel flags and
metadata: map[string]interface. Modelled as an ordered association
list of scalar values. -/
abbrev UserPreference : Type := List (String × JVal)

/-- The function enabled (zen.go 155-163): collect the keys whose value
is the boolean true. -/
def enabled : List (String × JVal) → List String
  | [] => []
  | (k, v) :: rest =>
      if v = JVal.b true then k :: enabled rest else enabled rest

/-- The function disableAll (zen.go 165-171): set every key whose value
is the boolean true to false, leaving every other entry alone. The Go
code mutates the map in place; the model returns the updated map. -/
def disableAll : List (String × JVal) → List (String × JVal)
  | [] => []
  | (k, v) :: rest =>
      (k, if v = JVal.b true then JVal.b false else v) :: disableAll rest

/-- The preference map of the worked example in the spec. -/
def examplePrefs : List (String × JVal) :=
  [("email", JVal.b true), ("slack", JVal.b false),
   ("id", JVal.n 7), ("email_address", JVal.s "a@b.com")]

/-- The expected image of the worked example under the disable transform. -/
def examplePrefsDisabled : List (String × JVal) :=
  [("email", JVal.b false), ("slack", JVal.b false),
   ("id", JVal.n 7), ("email_address", JVal.s "a@b.com")]

theorem disableAll_lookup (m : List (String × JVal)) (k : String) :
    List.lookup k (disableAll m) =
      (List.lookup k m).map (fun v => if v = JVal.b true then JVal.b false else v) := by
  induction m with
  | nil => simp [disableAll]
  | cons kv rest ih =>
      obtain ⟨k', v⟩ := kv
      by_cases hk : k = k'
      · subst hk
        simp [disableAll, List.lookup]
      · have hb : (k == k') = false := beq_eq_false_iff_ne.mpr hk
        simp [disableAll, List.lookup, hb, ih]

/-- C5: the disable transform maps every boolean-true value to false and
leaves every other value (booleans that are false, numbers, strings)
unchanged, key by key; on the worked example map the result is exactly
the expected map with only the email flag flipped. -/
theorem C5_disableAll_flips_only_true :
    (∀ (m : List (String × JVal)) (k : String),
        List.lookup k (disableAll m) =
          (List.lookup k m).map
            (fun v => if v = JVal.b true then JVal.b false else v))
    ∧ disableAll examplePrefs = examplePrefsDisabled := by
  refine ⟨disableAll_lookup, ?_⟩
  decide

/-- C10: after the disable transform no channel is still enabled, and the
transform is idempotent. -/
theorem C10_disableAll_enabled_empty_and_idempotent :
    ∀ m : List (String × JVal),
      enabled (disableAll m) = [] ∧ disableAll (disableAll m) = disableAll m := by
  intro m
  induction m with
  | nil => simp [enabled, disableAll]
  | cons kv rest ih =>
      obtain ⟨k, v⟩ := kv
      by_cases hv : v = JVal.b true
      · simp [disableAll, enabled, hv, ih.1, ih.2]
      · simp [disableAll, enabled, hv, ih.1, ih.2]

/-- An HTTP request as built by newRequest (zen.go 79-89): method, full
URL (base prefix plus relative path), the three fixed headers, the
Authorization header (empty string when unset, matching Header.Get on a
missing header), and an optional body. -/
structure Request where
  method : String
  url : String
  accept : String
  contentType : String
  xClientId : String
  authorization : String
  body : Option String
deriving Repr, DecidableEq

/-- The fixed API base URL set by NewClient (zen.go 54). -/
def apiBaseUrl : String := "https://zube.io/api/"

/-- The function newRequest (zen.go 79-89): prefix the base URL, set the
Accept, Content-Type and X-Client-ID headers, leave Authorization unset. -/
def newRequest (clientId method api : String) (body : Option String) : Request :=
  { method := method
    url := apiBaseUrl ++ api
    accept := "application/json"
    contentType := "application/json"
    xClientId := clientId
    authorization := ""
    body := body }

/-- An HTTP response: status code and body text. -/
structure HttpResponse where
  statusCode : Int
  body : String
deriving Repr, DecidableEq

/-- Outcome of a call against the client: a returned value, a returned Go
error, or blocking forever on the access mutex. -/
inductive CallResult (α : Type) where
  | ok (a : α)
  | err (e : String)
  | blocked
deriving Repr, DecidableEq

/-- The token slot of the client struct (zen.go 30-31): accessExpiry and
accessToken, with the empty string standing for the absent token. -/
structure TokenSlot where
  accessExpiry : Int
  accessToken : String
deriving Repr, DecidableEq

/-- The mutable part of the client relevant to the token cache: the
accessMutex (held or free) and the token slot it guards. -/
structure ClientTokenState where
  locked : Bool
  slot : TokenSlot
deriving Repr, DecidableEq

/-- The token acquisition step of doRequest (zen.go 95-110), taken when
the request carries no Authorization header. The access oracle stands
for c.access(now, later), the signing-plus-exchange call (zen.go
131-153); the returned Nat counts its invocations. A Lock() on a mutex
that is already held blocks forever, which the model reports as
blocked. Note that the source returns early on an exchange error while
still holding the mutex, and that the accessDuration set by NewClient is
one minute (60 seconds here). -/
def doRequestTokenStep (access : Int → Int → Except String String)
    (now : Int) (st : ClientTokenState) :
    CallResult String × ClientTokenState × Nat :=
  if st.locked then (CallResult.blocked, st, 0)
  else
    let st1 : ClientTokenState := { st with locked := true }
    if st1.slot.accessToken = "" ∨ st1.slot.accessExpiry < now then
      let later := now + 60
      match access now later with
      | Except.error e => (CallResult.err e, st1, 1)
      | Except.ok accessToken =>
          let st2 : ClientTokenState :=
            { locked := false
              slot := { accessExpiry := later, accessToken := accessToken } }
          (CallResult.ok st2.slot.accessToken, st2, 1)
    else
      let st2 : ClientTokenState := { st1 with locked := false }
      (CallResult.ok st2.slot.accessToken, st2, 0)

/-- The transport and status handling tail of doRequest (zen.go
111-128): perform the HTTP call, turn a status of exactly 400
(http.StatusBadRequest) into an error carrying the body text, and
otherwise hand the response back; debug teeing of the body is elided. -/
def doRequestSend (transport : Request → Except String HttpResponse)
    (req : Request) (st : ClientTokenState) (n : Nat) :
    CallResult HttpResponse × ClientTokenState × Nat :=
  match transport req with
  | Except.error e => (CallResult.err e, st, n)
  | Except.ok rsp =>
      if rsp.statusCode = 400 then
        (CallResult.err ("bad request: " ++ rsp.body), st, n)
      else (CallResult.ok rsp, st, n)

/-- The function doRequest (zen.go 91-129): when the request has no
Authorization header, run the token step and attach the obtained token
as a Bearer credential, then send; when an Authorization header is
already present (the token exchange request itself), send unchanged. -/
def doRequest (transport : Request → Except String HttpResponse)
    (access : Int → Int → Except String String)
    (now : Int) (st : ClientTokenState) (req : Request) :
    CallResult HttpResponse × ClientTokenState × Nat :=
  if req.authorization = "" then
    match doRequestTokenStep access now st with
    | (CallResult.blocked, st1, n) => (CallResult.blocked, st1, n)
    | (CallResult.err e, st1, n) => (CallResult.err e, st1, n)
    | (CallResult.ok tok, st1, n) =>
        doRequestSend transport { req with authorization := "Bearer " ++ tok } st1 n
  else
    doRequestSend transport req st 0

/-- C4: when the cached token is present and its stored expiry is
strictly after the current time, the token step performs zero
signing-and-exchange calls, leaves the client state (mutex and slot)
exactly unchanged, and returns the cached token string. -/
theorem C4_cached_token_skips_refresh
    (access : Int → Int → Except String String) (now : Int)
    (st : ClientTokenState)
    (hl : st.locked = false)
    (ht : st.slot.accessToken ≠ "")
    (he : now < st.slot.accessExpiry) :
    doRequestTokenStep access now st = (CallResult.ok st.slot.accessToken, st, 0) := by
  obtain ⟨lk, slot⟩ := st
  simp only at hl ht he
  subst hl
  have hcond : ¬(slot.accessToken = "" ∨ slot.accessExpiry < now) := by
    push_neg
    exact ⟨ht, by omega⟩
  simp [doRequestTokenStep, hcond]

/-- C4 witness: a concrete client holding token "tok" valid until 200,
queried at time 100, refreshes nothing and answers "tok". -/
theorem C4_cached_token_skips_refresh_witness :
    doRequestTokenStep (fun _ _ => Except.error "unused") 100
        ⟨false, ⟨200, "tok"⟩⟩ =
      (CallResult.ok "tok", ⟨false, ⟨200, "tok"⟩⟩, 0) :=
  C4_cached_token_skips_refresh (fun _ _ => Except.error "unused") 100
    ⟨false, ⟨200, "tok"⟩⟩ rfl (by decide) (by decide)

/-- C3: evaluation at the failing input. With an empty slot and an
exchange that fails, the token step does propagate the error and does
leave the token slot exactly as it was, but it returns with the access
mutex still held, so the claimed subsequent retry instead blocks
forever on the mutex. -/
theorem C3_failed_refresh_keeps_mutex_held :
    doRequestTokenStep (fun _ _ => Except.error "exchange failed") 100
        ⟨false, ⟨0, ""⟩⟩ =
      (CallResult.err "exchange failed", ⟨true, ⟨0, ""⟩⟩, 1)
    ∧ doRequestTokenStep (fun _ _ => Except.error "exchange failed") 100
        ⟨true, ⟨0, ""⟩⟩ =
      (CallResult.blocked, ⟨true, ⟨0, ""⟩⟩, 0) := by
  constructor
  · rfl
  · rfl

/-- A request that already carries an Authorization header, so that
doRequest goes straight to the transport. -/
def exampleAuthedRequest : Request :=
  { method := "GET"
    url := apiBaseUrl ++ "projects"
    accept := "application/json"
    contentType := "application/json"
    xClientId := "cid"
    authorization := "Bearer tok"
    body := none }

/-- C7 counterexample: a response with status 404 — squarely in the
client-error class — is not turned into an error by doRequest; it is
handed back as a success, refuting the claim for every non-400
client-error status. -/
theorem C7_counterexample_404_not_error :
    doRequest (fun _ => Except.ok ⟨404, "not found"⟩)
        (fun _ _ => Except.error "unused") 0 ⟨false, ⟨0, ""⟩⟩
        exampleAuthedRequest =
      (CallResult.ok ⟨404, "not found"⟩, ⟨false, ⟨0, ""⟩⟩, 0) := by
  rfl

/-- C7 amended: dispatch turns a response with status exactly 400
(http.StatusBadRequest) into an explicit error carrying the response
body text; every other status — including the rest of the client-error
class — is passed through as a success to be decoded. -/
theorem C7_only_status_400_is_error
    (transport : Request → Except String HttpResponse)
    (access : Int → Int → Except String String)
    (now : Int) (st : ClientTokenState) (req : Request) (rsp : HttpResponse)
    (ha : req.authorization ≠ "")
    (htr : transport req = Except.ok rsp) :
    (rsp.statusCode = 400 →
        doRequest transport access now st req =
          (CallResult.err ("bad request: " ++ rsp.body), st, 0))
    ∧ (rsp.statusCode ≠ 400 →
        doRequest transport access now st req = (CallResult.ok rsp, st, 0)) := by
  constructor
  · intro h400
    simp [doRequest, doRequestSend, ha, htr, h400]
  · intro hother
    simp [doRequest, doRequestSend, ha, htr, hother]

/-- C7 witness: with a transport answering status 400 and body "boom"
the dispatch fails with the body text, and with status 404 it succeeds. -/
theorem C7_only_status_400_is_error_witness :
    doRequest (fun _ => Except.ok ⟨400, "boom"⟩)
        (fun _ _ => Except.error "unused") 0 ⟨false, ⟨0, ""⟩⟩
        exampleAuthedRequest =
      (CallResult.err ("bad request: " ++ "boom"), ⟨false, ⟨0, ""⟩⟩, 0)
    ∧ doRequest (fun _ => Except.ok ⟨404, "x"⟩)
        (fun _ _ => Except.error "unused") 0 ⟨false, ⟨0, ""⟩⟩
        exampleAuthedRequest =
      (CallResult.ok ⟨404, "x"⟩, ⟨false, ⟨0, ""⟩⟩, 0) :=
  ⟨(C7_only_status_400_is_error (fun _ => Except.ok ⟨400, "boom"⟩)
      (fun _ _ => Except.error "unused") 0 ⟨false, ⟨0, ""⟩⟩
      exampleAuthedRequest ⟨400, "boom"⟩ (by decide) rfl).1 rfl,
   (C7_only_status_400_is_error (fun _ => Except.ok ⟨404, "x"⟩)
      (fun _ _ => Except.error "unused") 0 ⟨false, ⟨0, ""⟩⟩
      exampleAuthedRequest ⟨404, "x"⟩ (by decide) rfl).2 (by decide)⟩

/-- The Pagination envelope (project.go zen side, fields page, per_page,
total_pages, total). -/
structure Pagination where
  page : Int
  perPage : Int
  totalPages : Int
  total : Int
deriving Repr, DecidableEq

/-- The Sources record nested in Project; priv models the json field
named private, which is a reserved word here. time.Time fields are Unix
seconds. -/
structure Sources where
  id : Int
  githubOwnerId : Int
  description : String
  fullName : String
  homepage : String
  htmlUrl : String
  name : String
  priv : Bool
  createdAt : Int
  updatedAt : Int
  webhookVerifiedAt : Int
  initialImportAt : Int
deriving Repr, DecidableEq

/-- The Workspace record (project.go). -/
structure Workspace where
  id : Int
  projectId : Int
  description : String
  name : String
  slug : String
  priv : Bool
  priorityFormat : String
  priority : Bool
  points : Bool
  upvotes : Bool
  createdAt : Int
  updatedAt : Int
  archiveMergedPrs : Bool
  useCategoryLabels : Bool
deriving Repr, DecidableEq

/-- The Project record (project.go). -/
structure Project where
  id : Int
  accountId : Int
  description : String
  name : String
  createdAt : Int
  updatedAt : Int
  slug : String
  priv : Bool
  priorityFormat : String
  priority : Bool
  points : Bool
  triage : Bool
  upvotes : Bool
  sources : List Sources
  workspaces : List Workspace
deriving Repr, DecidableEq

/-- The UserSetting record (project.go). -/
structure UserSetting where
  id : Int
  projectId : Int
  userId : Int
  subscriptionLevel : String
  createdAt : Int
deriving Repr, DecidableEq

/-- ProjectsResponse (project.go 11-14): pagination envelope plus the
data list of projects. -/
structure ProjectsResponse where
  pagination : Pagination
  projects : List Project
deriving Repr, DecidableEq

/-- EmailPreferencesResponse (project.go 16-19). -/
structure EmailPreferencesResponse where
  pagination : Pagination
  userEmailPreferences : List UserPreference

/-- UserSettingResponse (project.go 21-24). -/
structure UserSettingResponse where
  pagination : Pagination
  userSettings : List UserSetting
deriving Repr, DecidableEq

/-- The request built by the method projects (project.go 27): the page
argument of the method does not occur anywhere in it — the source
builds the bare "projects" path for every page. -/
def projectsRequest (clientId : String) (page : Int) : Request :=
  newRequest clientId "GET" "projects" none

/-- The method projects (project.go 26-41). The fetch oracle stands for
doRequest plus the JSON decode of the body with its while-decoding
error wrapping. -/
def projects (clientId : String)
    (fetch : Request → Except String ProjectsResponse)
    (page : Int) : Except String ProjectsResponse :=
  fetch (projectsRequest clientId page)

/-- The loop of ListProjects (project.go 43-55), with explicit fuel
standing for the unbounded Go for loop and a trace of the requests
issued. An error on any page is returned at once, discarding the
accumulated projects. -/
def ListProjectsLoop (clientId : String)
    (fetch : Request → Except String ProjectsResponse) :
    Nat → Int → List Project → List Request →
      Option (Except String (List Project)) × List Request
  | 0, _, _, trace => (none, trace)
  | Nat.succ fuel, page, acc, trace =>
      let req := projectsRequest clientId page
      match projects clientId fetch page with
      | Except.error e => (some (Except.error e), trace ++ [req])
      | Except.ok rsp =>
          let acc2 := acc ++ rsp.projects
          if rsp.pagination.totalPages ≤ page then
            (some (Except.ok acc2), trace ++ [req])
          else
            ListProjectsLoop clientId fetch fuel (page + 1) acc2 (trace ++ [req])

/-- The method ListProjects (project.go 43-55): run the loop from page 1
with an empty accumulator. -/
def ListProjects (clientId : String)
    (fetch : Request → Except String ProjectsResponse) (fuel : Nat) :
    Option (Except String (List Project)) × List Request :=
  ListProjectsLoop clientId fetch fuel 1 [] []

/-- A concrete project appearing on the first page of the two-page
server. -/
def pageOneProject : Project :=
  { id := 1, accountId := 1, description := "", name := "p1",
    createdAt := 0, updatedAt := 0, slug := "p1", priv := false,
    priorityFormat := "", priority := false, points := false,
    triage := false, upvotes := false, sources := [], workspaces := [] }

/-- A two-page server: the bare projects path serves the first page,
whose envelope reports total_pages = 2; any other URL (in particular
any URL that would carry a page parameter) is unknown to it. -/
def twoPageServer : Request → Except String ProjectsResponse := fun req =>
  if req.url = apiBaseUrl ++ "projects" then
    Except.ok { pagination := { page := 1, perPage := 1, totalPages := 2, total := 2 },
                projects := [pageOneProject] }
  else Except.error "404 page not found"

/-- C1: evaluation at the failing input. Against a server reporting
total_pages = 2, ListProjects does perform two fetches and fails fast
on errors, but both requests are the identical bare "projects" request
— no page number is ever sent, because the method projects ignores its
page argument — so the returned sequence is the first page duplicated,
not the concatenation of pages 1 and 2. -/
theorem C1_listProjects_never_sends_page_number :
    ListProjects "cid" twoPageServer 10 =
      (some (Except.ok [pageOneProject, pageOneProject]),
       [projectsRequest "cid" 1, projectsRequest "cid" 2])
    ∧ projectsRequest "cid" 1 = projectsRequest "cid" 2 := by
  constructor
  · rfl
  · rfl

/-- Outcome of a Go call that can also terminate abnormally: a returned
value, a returned error value, or a runtime panic that unwinds past the
caller instead of being returned to it. -/
inductive GoResult (α : Type) where
  | ok (a : α)
  | err (e : String)
  | panicked (msg : String)
deriving Repr, DecidableEq

/-- Whether an outcome is an error value returned to the caller. -/
def isErrReturn {α : Type} : GoResult α → Bool
  | GoResult.err _ => true
  | _ => false

/-- Go slice indexing xs i as in prefs[0]: yields the element when the
index is in range and otherwise panics with an index out of range
runtime error. -/
def goIndex {α : Type} (xs : List α) (i : Nat) : GoResult α :=
  match xs.get? i with
  | some a => GoResult.ok a
  | none => GoResult.panicked "runtime error: index out of range"

/-- The method notificationPreferences (project.go 73-92). The fetch
oracle stands for doRequest plus the JSON decode with its while-decoding
error wrapping; the warning logged when more than one entry is present
is elided (it does not change the result). The final first-element
access is the unguarded prefs[0] of the source, embedded as goIndex. -/
def notificationPreferences (clientId : String)
    (fetch : Request → Except String EmailPreferencesResponse)
    (objectId : Int) (object prefType : String) : GoResult UserPreference :=
  let req := newRequest clientId "GET"
      (object ++ "/" ++ toString objectId ++ "/" ++ prefType) none
  match fetch req with
  | Except.error e => GoResult.err e
  | Except.ok r => goIndex r.userEmailPreferences 0

/-- The method userSettings (project.go 106-129): path selection between
triage_user_settings and user_settings, then the same fetch, decode and
unguarded settings[0] access; the pointer taken by the source is
elided. -/
def userSettings (clientId : String)
    (fetch : Request → Except String UserSettingResponse)
    (objectId : Int) (object : String) (triage : Bool) : GoResult UserSetting :=
  let method := if triage then "triage_user_settings" else "user_settings"
  let req := newRequest clientId "GET"
      (object ++ "/" ++ toString objectId ++ "/" ++ method) none
  match fetch req with
  | Except.error e => GoResult.err e
  | Except.ok r => goIndex r.userSettings 0

/-- C2 counterexample: on a response whose wrapped list is empty,
notification-preferences does not return an error value to its caller —
the unguarded prefs[0] access panics with index out of range instead. -/
theorem C2_counterexample_empty_list_panics_not_error :
    notificationPreferences "cid" (fun _ => Except.ok ⟨⟨1, 1, 0, 0⟩, []⟩)
        7 "projects" "user_email_preferences" =
      GoResult.panicked "runtime error: index out of range"
    ∧ isErrReturn (notificationPreferences "cid"
        (fun _ => Except.ok ⟨⟨1, 1, 0, 0⟩, []⟩)
        7 "projects" "user_email_preferences") = false := by
  exact ⟨rfl, rfl⟩

/-- C2 amended: on every response whose wrapped list of entries is empty,
notification-preferences (and likewise user-settings) fails with an
explicit index-out-of-range runtime panic rather than silently
returning a zero-valued structure; the first-element access is not
guarded, so the failure unwinds as a panic instead of being returned as
an error value. -/
theorem C2_empty_list_is_out_of_range_panic
    (clientId : String)
    (fetchP : Request → Except String EmailPreferencesResponse)
    (fetchS : Request → Except String UserSettingResponse)
    (objectId : Int) (object prefType : String) (triage : Bool)
    (rP : EmailPreferencesResponse) (rS : UserSettingResponse)
    (hP : ∀ req, fetchP req = Except.ok rP)
    (hS : ∀ req, fetchS req = Except.ok rS)
    (heP : rP.userEmailPreferences = [])
    (heS : rS.userSettings = []) :
    notificationPreferences clientId fetchP objectId object prefType =
        GoResult.panicked "runtime error: index out of range"
    ∧ userSettings clientId fetchS objectId object triage =
        GoResult.panicked "runtime error: index out of range" := by
  constructor
  · simp [notificationPreferences, hP, heP, goIndex]
  · simp [userSettings, hS, heS, goIndex]

/-- C2 witness: a concrete empty email-preferences response and a
concrete empty user-settings response both end in the out-of-range
panic. -/
theorem C2_empty_list_is_out_of_range_panic_witness :
    notificationPreferences "cid" (fun _ => Except.ok ⟨⟨1, 1, 0, 0⟩, []⟩)
        3 "workspaces" "user_in_app_preferences" =
      GoResult.panicked "runtime error: index out of range"
    ∧ userSettings "cid" (fun _ => Except.ok ⟨⟨1, 1, 0, 0⟩, []⟩)
        3 "workspaces" false =
      GoResult.panicked "runtime error: index out of range" :=
  C2_empty_list_is_out_of_range_panic "cid"
    (fun _ => Except.ok ⟨⟨1, 1, 0, 0⟩, []⟩)
    (fun _ => Except.ok ⟨⟨1, 1, 0, 0⟩, []⟩)
    3 "workspaces" "user_in_app_preferences" false
    ⟨⟨1, 1, 0, 0⟩, []⟩ ⟨⟨1, 1, 0, 0⟩, []⟩
    (fun _ => rfl) (fun _ => rfl) rfl rfl

/-- The decoded shape of a generic JSON body (the interface value of
project.go 157): an object of scalar fields, an array, or a bare
scalar. Only objects can carry the error key. -/
inductive JSON where
  | obj (fields : List (String × JVal))
  | arr (items : List JVal)
  | atom (v : JVal)
deriving Repr, DecidableEq

/-- Rendering of a decoded value by the fmt %s verb as used in the
error message of project.go 163: strings print verbatim, booleans as
true or false, a nil as a nil marker, and a float64 via the mismatch
notice the verb produces for it. -/
def goFmtS : JVal → String
  | JVal.s str => str
  | JVal.b true => "true"
  | JVal.b false => "false"
  | JVal.n k => "%!s(float64=" ++ toString k ++ ")"
  | JVal.null => "<nil>"

/-- The method disableNotifications (project.go 147-168): PUT the
caller-prepared payload to the sub-resource, decode the response
generically, and synthesize an error naming the request URL and the
error payload when the decoded object carries an error key; succeed
with no return value otherwise. The perform oracle stands for
doRequest plus the generic JSON decode. -/
def disableNotifications (clientId : String)
    (perform : Request → Except String JSON)
    (objectId : Int) (object : String) (prefId : Int) (prefType : String)
    (body : Option String) : Except String Unit :=
  let req := newRequest clientId "PUT"
      (object ++ "/" ++ toString objectId ++ "/" ++ prefType ++ "/" ++ toString prefId)
      body
  match perform req with
  | Except.error e => Except.error e
  | Except.ok j =>
      match j with
      | JSON.obj m =>
          match List.lookup "error" m with
          | some msg =>
              Except.error ("error disabling notifications for " ++ req.url ++
                ": " ++ goFmtS msg)
          | none => Except.ok ()
      | _ => Except.ok ()

/-- The string s contains pat as a contiguous substring. -/
def strContains (s pat : String) : Prop :=
  ∃ a b : List Char, s.data = a ++ (pat.data ++ b)

theorem strContains_of_data (s pat : String) (a b : List Char)
    (h : s.data = a ++ (pat.data ++ b)) : strContains s pat :=
  ⟨a, b, h⟩

/-- C6: when the decoded response is an object containing an error key,
disable-notifications fails with the message naming the request URL and
the rendered error payload — the message contains both as substrings;
when the decoded response has no error key (an object without it, an
array, or a scalar), the operation succeeds with no return value. -/
theorem C6_disable_notifications_error_key
    (clientId : String) (objectId : Int) (object : String) (prefId : Int)
    (prefType : String) (body : Option String)
    (perform : Request → Except String JSON) (j : JSON)
    (hperf : ∀ req, perform req = Except.ok j) :
    (∀ m msg, j = JSON.obj m → List.lookup "error" m = some msg →
        disableNotifications clientId perform objectId object prefId prefType body =
          Except.error ("error disabling notifications for " ++
            (newRequest clientId "PUT"
              (object ++ "/" ++ toString objectId ++ "/" ++ prefType ++ "/" ++
                toString prefId) body).url ++
            ": " ++ goFmtS msg)
        ∧ strContains
            ("error disabling notifications for " ++
              (newRequest clientId "PUT"
                (object ++ "/" ++ toString objectId ++ "/" ++ prefType ++ "/" ++
                  toString prefId) body).url ++
              ": " ++ goFmtS msg)
            (newRequest clientId "PUT"
              (object ++ "/" ++ toString objectId ++ "/" ++ prefType ++ "/" ++
                toString prefId) body).url
        ∧ strContains
            ("error disabling notifications for " ++
              (newRequest clientId "PUT"
                (object ++ "/" ++ toString objectId ++ "/" ++ prefType ++ "/" ++
                  toString prefId) body).url ++
              ": " ++ goFmtS msg)
            (goFmtS msg))
    ∧ ((∀ m, j = JSON.obj m → List.lookup "error" m = none) →
        disableNotifications clientId perform objectId object prefId prefType body =
          Except.ok ()) := by
  constructor
  · intro m msg hj hlook
    subst hj
    refine ⟨?_, ?_, ?_⟩
    · simp [disableNotifications, hperf, hlook]
    · exact strContains_of_data _ _
        ("error disabling notifications for ").data
        ((": ").data ++ (goFmtS msg).data)
        (by simp [String.data_append, List.append_assoc])
    · exact strContains_of_data _ _
        (("error disabling notifications for ").data ++
          ((newRequest clientId "PUT"
            (object ++ "/" ++ toString objectId ++ "/" ++ prefType ++ "/" ++
              toString prefId) body).url.data ++ (": ").data))
        []
        (by simp [String.data_append, List.append_assoc])
  · intro hnone
    cases j with
    | obj m =>
        have h := hnone m rfl
        simp [disableNotifications, hperf, h]
    | arr items => simp [disableNotifications, hperf]
    | atom v => simp [disableNotifications, hperf]

/-- C6 witness: a decoded body carrying error "bad id" fails with the
full message naming the request URL and the payload, and a decoded body
with only a status field succeeds. -/
theorem C6_disable_notifications_error_key_witness :
    (disableNotifications "cid"
        (fun _ => Except.ok (JSON.obj [("error", JVal.s "bad id")]))
        1 "projects" 2 "user_email_preferences" none =
      Except.error ("error disabling notifications for " ++
        (newRequest "cid" "PUT"
          (("projects" : String) ++ "/" ++ toString (1 : Int) ++ "/" ++
            "user_email_preferences" ++ "/" ++ toString (2 : Int)) none).url ++
        ": " ++ goFmtS (JVal.s "bad id"))
      ∧ strContains
          ("error disabling notifications for " ++
            (newRequest "cid" "PUT"
              (("projects" : String) ++ "/" ++ toString (1 : Int) ++ "/" ++
                "user_email_preferences" ++ "/" ++ toString (2 : Int)) none).url ++
            ": " ++ goFmtS (JVal.s "bad id"))
          (newRequest "cid" "PUT"
            (("projects" : String) ++ "/" ++ toString (1 : Int) ++ "/" ++
              "user_email_preferences" ++ "/" ++ toString (2 : Int)) none).url
      ∧ strContains
          ("error disabling notifications for " ++
            (newRequest "cid" "PUT"
              (("projects" : String) ++ "/" ++ toString (1 : Int) ++ "/" ++
                "user_email_preferences" ++ "/" ++ toString (2 : Int)) none).url ++
            ": " ++ goFmtS (JVal.s "bad id"))
          (goFmtS (JVal.s "bad id")))
    ∧ disableNotifications "cid"
        (fun _ => Except.ok (JSON.obj [("status", JVal.s "ok")]))
        1 "projects" 2 "user_email_preferences" none = Except.ok () :=
  ⟨(C6_disable_notifications_error_key "cid" 1 "projects" 2
      "user_email_preferences" none
      (fun _ => Except.ok (JSON.obj [("error", JVal.s "bad id")]))
      (JSON.obj [("error", JVal.s "bad id")]) (fun _ => rfl)).1
      [("error", JVal.s "bad id")] (JVal.s "bad id") rfl rfl,
   (C6_disable_notifications_error_key "cid" 1 "projects" 2
      "user_email_preferences" none
      (fun _ => Except.ok (JSON.obj [("status", JVal.s "ok")]))
      (JSON.obj [("status", JVal.s "ok")]) (fun _ => rfl)).2
      (by intro m hm; cases hm; rfl)⟩

/-- Outcome of a Go call that may abort the whole process through
log.Fatalf instead of returning: a returned value, a returned error
value, or a fatal process abort. -/
inductive GoFatalResult (α : Type) where
  | ok (a : α)
  | err (e : String)
  | fatal (msg : String)
deriving Repr, DecidableEq

/-- The jwt-go StandardClaims fields populated by refreshToken (zen.go
67-71): IssuedAt, ExpiresAt and Issuer, times in Unix seconds. -/
structure StandardClaims where
  issuedAt : Int
  expiresAt : Int
  issuer : String
deriving Repr, DecidableEq

/-- The jwt-go check of the exp claim against a clock value, in the
non-required form used by StandardClaims.Valid: a zero claim passes,
otherwise the clock must not be past the expiry. -/
def verifyExp (exp now : Int) : Bool :=
  if exp = 0 then true else decide (now ≤ exp)

/-- The jwt-go check of the iat claim against a clock value, in the
non-required form: a zero claim passes, otherwise the token must not be
used before it was issued. -/
def verifyIat (iat now : Int) : Bool :=
  if iat = 0 then true else decide (iat ≤ now)

/-- The jwt-go StandardClaims.Valid self-validation against the clock
value it reads: expiry and issued-at checks; the NotBefore claim is
never set here and always passes as the zero value. -/
def claimsValid (c : StandardClaims) (now : Int) : Bool :=
  verifyExp c.expiresAt now && verifyIat c.issuedAt now

/-- A signed assertion: the serialized JWT embeds its claims, so the
model keeps them structured next to the signature produced by the key. -/
structure SignedJWT where
  claims : StandardClaims
  sig : String
deriving Repr, DecidableEq

/-- The method refreshToken (zen.go 65-77). The iat and eat parameters
mirror the Go signature and, exactly as in the source, are never used:
the function reads the clock again. now1 is the time.Now() read at
zen.go 66 and now2 the TimeFunc() read inside claims.Valid; the sign
oracle stands for token.SignedString(c.key). A failed self-validation
hits log.Fatalf, a fatal process abort whose formatted detail is
elided; a failed signature operation is returned as an error. -/
def refreshToken (clientId : String)
    (sign : StandardClaims → Except String String)
    (now1 now2 : Int) (iat eat : Int) : GoFatalResult SignedJWT :=
  let claims : StandardClaims :=
    { issuedAt := now1, expiresAt := now1 + 60, issuer := clientId }
  if claimsValid claims now2 then
    match sign claims with
    | Except.error e => GoFatalResult.err e
    | Except.ok s => GoFatalResult.ok { claims := claims, sig := s }
  else GoFatalResult.fatal "invalid claims"

/-- C8 counterexample: called with issue time 100 (and expiry argument
160) while the ambient clock reads 200, the signer produces an
assertion whose issued-at is 200, not the issue time 100 — the issue
and expiry arguments are ignored and the clock is read afresh. -/
theorem C8_counterexample_issue_time_ignored :
    refreshToken "cid" (fun _ => Except.ok "sig") 200 200 100 160 =
      GoFatalResult.ok ⟨⟨200, 260, "cid"⟩, "sig"⟩
    ∧ (⟨⟨200, 260, "cid"⟩, "sig"⟩ : SignedJWT).claims.issuedAt ≠ 100 := by
  exact ⟨rfl, by decide⟩

/-- C8 amended: the signer builds claims from the clock value it reads
itself, ignoring its issue-time and expiry-time arguments: issuer is
the client identifier, issued-at the clock value, expiry that value
plus one minute. When the second clock read is not behind the first and
within the window, a signature failure is returned to the caller as an
error and a signing success yields the assertion; when the clock moves
backwards between the two reads, the claims fail self-validation and
the process aborts fatally instead of returning an error. -/
theorem C8_signer_uses_own_clock
    (clientId : String) (sign : StandardClaims → Except String String)
    (now1 now2 iat eat : Int)
    (hmono : now1 ≤ now2) (hwin : now2 ≤ now1 + 60) :
    (∀ s, sign ⟨now1, now1 + 60, clientId⟩ = Except.ok s →
        refreshToken clientId sign now1 now2 iat eat =
          GoFatalResult.ok ⟨⟨now1, now1 + 60, clientId⟩, s⟩)
    ∧ (∀ e, sign ⟨now1, now1 + 60, clientId⟩ = Except.error e →
        refreshToken clientId sign now1 now2 iat eat = GoFatalResult.err e)
    ∧ (∀ nowb, now1 ≠ 0 → nowb < now1 →
        refreshToken clientId sign now1 nowb iat eat =
          GoFatalResult.fatal "invalid claims") := by
  have hvalid : claimsValid ⟨now1, now1 + 60, clientId⟩ now2 = true := by
    simp only [claimsValid, verifyExp, verifyIat, Bool.and_eq_true]
    constructor
    · split
      · rfl
      · simp only [decide_eq_true_eq]; omega
    · split
      · rfl
      · simp only [decide_eq_true_eq]; omega
  refine ⟨?_, ?_, ?_⟩
  · intro s hs
    simp [refreshToken, hvalid, hs]
  · intro e he
    simp [refreshToken, hvalid, he]
  · intro nowb h0 hb
    have hinvalid : claimsValid ⟨now1, now1 + 60, clientId⟩ nowb = false := by
      simp only [claimsValid, verifyExp, verifyIat, Bool.and_eq_false_iff]
      right
      simp only [if_neg h0, decide_eq_false_iff_not]
      omega
    simp [refreshToken, hinvalid]

/-- C8 witness: at clock value 100 the signer yields the assertion with
issued-at 100, expiry 160 and issuer cid; with the validation clock at
50 (behind the construction clock) it aborts fatally. -/
theorem C8_signer_uses_own_clock_witness :
    refreshToken "cid" (fun _ => Except.ok "sig") 100 100 100 160 =
      GoFatalResult.ok ⟨⟨100, 160, "cid"⟩, "sig"⟩
    ∧ refreshToken "cid" (fun _ => Except.ok "sig") 100 50 100 160 =
      GoFatalResult.fatal "invalid claims" :=
  ⟨(C8_signer_uses_own_clock "cid" (fun _ => Except.ok "sig") 100 100 100 160
      (by decide) (by decide)).1 "sig" rfl,
   (C8_signer_uses_own_clock "cid" (fun _ => Except.ok "sig") 100 100 100 160
      (by decide) (by decide)).2.2 50 (by decide) (by decide)⟩

/-- Shared client state touched by concurrent doRequest callers: the
accessMutex, the token slot it guards, and a count of
signing-and-exchange calls (invocations of c.access) so far, letting a
duplicated refresh show up in the model. -/
structure SharedState where
  lockHeld : Bool
  accessToken : String
  accessExpiry : Int
  exchCount : Nat
deriving Repr, DecidableEq

/-- One goroutine running the token step of doRequest (zen.go 95-109),
as a program counter over its shared-memory accesses, the local
variable holding the freshly exchanged token, and the Bearer token the
goroutine ends up attaching to its request. -/
structure ThreadState where
  pc : Nat
  localTok : String
  result : Option String
deriving Repr, DecidableEq

/-- The whole two-caller system: shared state plus the two goroutines. -/
structure Sys where
  sh : SharedState
  tA : ThreadState
  tB : ThreadState
deriving Repr, DecidableEq

/-- One shared-memory access of the token step of doRequest, at the
granularity of the source lines. pc 0: accessMutex.Lock(), which makes
no progress while the mutex is held by the other goroutine; pc 1: the
guarded read of the slot at zen.go 97; pc 2: the c.access call — it
performs the signing and the exchange against the token endpoint with
an explicit Authorization header, touching no shared token state, and
the exch oracle names the token returned by its n-th invocation (the
exchange is taken to succeed, as in the scenario of the claim); pc 3:
the write of accessExpiry at zen.go 105; pc 4: the write of accessToken
at zen.go 106; pc 5: accessMutex.Unlock(); pc 6: the read of
c.accessToken outside the lock at zen.go 109, producing the Bearer
value; pc 7: done. -/
def threadStep (now : Int) (exch : Nat → String)
    (s : SharedState) (t : ThreadState) : SharedState × ThreadState :=
  match t.pc with
  | 0 => if s.lockHeld then (s, t)
         else ({ s with lockHeld := true }, { t with pc := 1 })
  | 1 => if s.accessToken = "" ∨ s.accessExpiry < now
         then (s, { t with pc := 2 })
         else (s, { t with pc := 5 })
  | 2 => ({ s with exchCount := s.exchCount + 1 },
          { t with localTok := exch s.exchCount, pc := 3 })
  | 3 => ({ s with accessExpiry := now + 60 }, { t with pc := 4 })
  | 4 => ({ s with accessToken := t.localTok }, { t with pc := 5 })
  | 5 => ({ s with lockHeld := false }, { t with pc := 6 })
  | 6 => (s, { t with result := some s.accessToken, pc := 7 })
  | _ => (s, t)

/-- Schedule one of the two goroutines for a step: false runs caller A,
true runs caller B. -/
def sysStep (now : Int) (exch : Nat → String) (s : Sys) (who : Bool) : Sys :=
  if who then
    let r := threadStep now exch s.sh s.tB
    { s with sh := r.1, tB := r.2 }
  else
    let r := threadStep now exch s.sh s.tA
    { s with sh := r.1, tA := r.2 }

/-- Run the system under an arbitrary finite schedule. -/
def sysRun (now : Int) (exch : Nat → String) : Sys → List Bool → Sys
  | s, [] => s
  | s, w :: ws => sysRun now exch (sysStep now exch s w) ws

/-- The reachable configurations once one caller (the winner w) has
acquired the mutex while the other (the loser l) has not yet got it:
first the five points of the winner walking through the refresh under
the lock, then, with the slot refreshed and the winner past its unlock,
the loser walking through its own lock-check-skip-unlock. T names the
token produced by the single exchange call. -/
def InvSide (now : Int) (T tok0 : String) (exp0 : Int)
    (w l : ThreadState) (sh : SharedState) : Prop :=
  (sh = ⟨true, tok0, exp0, 0⟩ ∧ w = ⟨1, "", none⟩ ∧ l = ⟨0, "", none⟩) ∨
  (sh = ⟨true, tok0, exp0, 0⟩ ∧ w = ⟨2, "", none⟩ ∧ l = ⟨0, "", none⟩) ∨
  (sh = ⟨true, tok0, exp0, 1⟩ ∧ w = ⟨3, T, none⟩ ∧ l = ⟨0, "", none⟩) ∨
  (sh = ⟨true, tok0, now + 60, 1⟩ ∧ w = ⟨4, T, none⟩ ∧ l = ⟨0, "", none⟩) ∨
  (sh = ⟨true, T, now + 60, 1⟩ ∧ w = ⟨5, T, none⟩ ∧ l = ⟨0, "", none⟩) ∨
  ((w = ⟨6, T, none⟩ ∨ w = ⟨7, T, some T⟩) ∧
    ((sh = ⟨false, T, now + 60, 1⟩ ∧ l = ⟨0, "", none⟩) ∨
     (sh = ⟨true, T, now + 60, 1⟩ ∧ l = ⟨1, "", none⟩) ∨
     (sh = ⟨true, T, now + 60, 1⟩ ∧ l = ⟨5, "", none⟩) ∨
     (sh = ⟨false, T, now + 60, 1⟩ ∧ l = ⟨6, "", none⟩) ∨
     (sh = ⟨false, T, now + 60, 1⟩ ∧ l = ⟨7, "", some T⟩)))

/-- The invariant of the two-caller system started on an absent or
expired slot: either nobody has acquired the mutex yet, or one of the
two callers is the winner of InvSide. -/
def Inv (now : Int) (T tok0 : String) (exp0 : Int) (s : Sys) : Prop :=
  (s.sh = ⟨false, tok0, exp0, 0⟩ ∧ s.tA = ⟨0, "", none⟩ ∧ s.tB = ⟨0, "", none⟩) ∨
  InvSide now T tok0 exp0 s.tA s.tB s.sh ∨
  InvSide now T tok0 exp0 s.tB s.tA s.sh

theorem InvSide_stepW (now : Int) (exch : Nat → String)
    (tok0 : String) (exp0 : Int) (w l : ThreadState) (sh : SharedState)
    (hInit : tok0 = "" ∨ exp0 < now)
    (h : InvSide now (exch 0) tok0 exp0 w l sh) :
    InvSide now (exch 0) tok0 exp0
      (threadStep now exch sh w).2 l (threadStep now exch sh w).1 := by
  rcases h with ⟨hs, hw, hl⟩ | ⟨hs, hw, hl⟩ | ⟨hs, hw, hl⟩ | ⟨hs, hw, hl⟩ |
    ⟨hs, hw, hl⟩ | ⟨hw, hrest⟩
  · subst hs; subst hw; subst hl
    simp only [threadStep]
    rw [if_pos hInit]
    exact Or.inr (Or.inl ⟨rfl, rfl, rfl⟩)
  · subst hs; subst hw; subst hl
    simp only [threadStep]
    exact Or.inr (Or.inr (Or.inl ⟨rfl, rfl, rfl⟩))
  · subst hs; subst hw; subst hl
    simp only [threadStep]
    exact Or.inr (Or.inr (Or.inr (Or.inl ⟨rfl, rfl, rfl⟩)))
  · subst hs; subst hw; subst hl
    simp only [threadStep]
    exact Or.inr (Or.inr (Or.inr (Or.inr (Or.inl ⟨rfl, rfl, rfl⟩))))
  · subst hs; subst hw; subst hl
    simp only [threadStep]
    exact Or.inr (Or.inr (Or.inr (Or.inr (Or.inr
      ⟨Or.inl rfl, Or.inl ⟨rfl, rfl⟩⟩))))
  · rcases hw with hw | hw <;> subst hw <;>
      rcases hrest with ⟨hs, hl⟩ | ⟨hs, hl⟩ | ⟨hs, hl⟩ | ⟨hs, hl⟩ | ⟨hs, hl⟩ <;>
      subst hs <;> subst hl <;> simp only [threadStep] <;>
      refine Or.inr (Or.inr (Or.inr (Or.inr (Or.inr ⟨Or.inr rfl, ?_⟩))))
    · exact Or.inl ⟨rfl, rfl⟩
    · exact Or.inr (Or.inl ⟨rfl, rfl⟩)
    · exact Or.inr (Or.inr (Or.inl ⟨rfl, rfl⟩))
    · exact Or.inr (Or.inr (Or.inr (Or.inl ⟨rfl, rfl⟩)))
    · exact Or.inr (Or.inr (Or.inr (Or.inr ⟨rfl, rfl⟩)))
    · exact Or.inl ⟨rfl, rfl⟩
    · exact Or.inr (Or.inl ⟨rfl, rfl⟩)
    · exact Or.inr (Or.inr (Or.inl ⟨rfl, rfl⟩))
    · exact Or.inr (Or.inr (Or.inr (Or.inl ⟨rfl, rfl⟩)))
    · exact Or.inr (Or.inr (Or.inr (Or.inr ⟨rfl, rfl⟩)))

theorem InvSide_stepL (now : Int) (exch : Nat → String)
    (tok0 : String) (exp0 : Int) (w l : ThreadState) (sh : SharedState)
    (hTok : exch 0 ≠ "")
    (h : InvSide now (exch 0) tok0 exp0 w l sh) :
    InvSide now (exch 0) tok0 exp0
      w (threadStep now exch sh l).2 (threadStep now exch sh l).1 := by
  have hskip : ¬(exch 0 = "" ∨ now + 60 < now) := by
    push_neg
    exact ⟨hTok, by omega⟩
  rcases h with ⟨hs, hw, hl⟩ | ⟨hs, hw, hl⟩ | ⟨hs, hw, hl⟩ | ⟨hs, hw, hl⟩ |
    ⟨hs, hw, hl⟩ | ⟨hw, hrest⟩
  · subst hs; subst hw; subst hl
    simp only [threadStep, if_pos]
    exact Or.inl ⟨rfl, rfl, rfl⟩
  · subst hs; subst hw; subst hl
    simp only [threadStep, if_pos]
    exact Or.inr (Or.inl ⟨rfl, rfl, rfl⟩)
  · subst hs; subst hw; subst hl
    simp only [threadStep, if_pos]
    exact Or.inr (Or.inr (Or.inl ⟨rfl, rfl, rfl⟩))
  · subst hs; subst hw; subst hl
    simp only [threadStep, if_pos]
    exact Or.inr (Or.inr (Or.inr (Or.inl ⟨rfl, rfl, rfl⟩)))
  · subst hs; subst hw; subst hl
    simp only [threadStep, if_pos]
    exact Or.inr (Or.inr (Or.inr (Or.inr (Or.inl ⟨rfl, rfl, rfl⟩))))
  · rcases hrest with ⟨hs, hl⟩ | ⟨hs, hl⟩ | ⟨hs, hl⟩ | ⟨hs, hl⟩ | ⟨hs, hl⟩ <;>
      subst hs <;> subst hl <;> simp only [threadStep] <;>
      refine Or.inr (Or.inr (Or.inr (Or.inr (Or.inr ⟨hw, ?_⟩))))
    · exact Or.inr (Or.inl ⟨rfl, rfl⟩)
    · rw [if_neg hskip]
      exact Or.inr (Or.inr (Or.inl ⟨rfl, rfl⟩))
    · exact Or.inr (Or.inr (Or.inr (Or.inl ⟨rfl, rfl⟩)))
    · exact Or.inr (Or.inr (Or.inr (Or.inr ⟨rfl, rfl⟩)))
    · exact Or.inr (Or.inr (Or.inr (Or.inr ⟨rfl, rfl⟩)))

theorem Inv_step (now : Int) (exch : Nat → String)
    (tok0 : String) (exp0 : Int)
    (hInit : tok0 = "" ∨ exp0 < now) (hTok : exch 0 ≠ "")
    (s : Sys) (who : Bool)
    (h : Inv now (exch 0) tok0 exp0 s) :
    Inv now (exch 0) tok0 exp0 (sysStep now exch s who) := by
  rcases h with ⟨hs, ha, hb⟩ | hA | hB
  · cases who
    · refine Or.inr (Or.inl ?_)
      simp only [sysStep, if_neg Bool.false_ne_true, hs, ha, hb, threadStep]
      exact Or.inl ⟨rfl, rfl, rfl⟩
    · refine Or.inr (Or.inr ?_)
      simp only [sysStep, if_pos rfl, hs, ha, hb, threadStep]
      exact Or.inl ⟨rfl, rfl, rfl⟩
  · cases who
    · exact Or.inr (Or.inl (InvSide_stepW now exch tok0 exp0 s.tA s.tB s.sh hInit hA))
    · exact Or.inr (Or.inl (InvSide_stepL now exch tok0 exp0 s.tA s.tB s.sh hTok hA))
  · cases who
    · exact Or.inr (Or.inr (InvSide_stepL now exch tok0 exp0 s.tB s.tA s.sh hTok hB))
    · exact Or.inr (Or.inr (InvSide_stepW now exch tok0 exp0 s.tB s.tA s.sh hInit hB))

theorem Inv_run (now : Int) (exch : Nat → String)
    (tok0 : String) (exp0 : Int)
    (hInit : tok0 = "" ∨ exp0 < now) (hTok : exch 0 ≠ "")
    (sched : List Bool) (s : Sys)
    (h : Inv now (exch 0) tok0 exp0 s) :
    Inv now (exch 0) tok0 exp0 (sysRun now exch s sched) := by
  induction sched generalizing s with
  | nil => exact h
  | cons who rest ih =>
      exact ih (sysStep now exch s who)
        (Inv_step now exch tok0 exp0 hInit hTok s who h)

/-- C9: for every schedule of two concurrent callers that both complete
the token step, starting from an absent or expired slot and an exchange
that returns a real (non-empty) token, exactly one
signing-and-exchange call occurs — the first — and both callers attach
one and the same resulting token. The model interleaves the two
goroutines of doRequest at the granularity of their shared-memory
accesses, with the mutex blocking the later arrival until the refresh
is complete. -/
theorem C9_single_refresh_same_token
    (now : Int) (exch : Nat → String) (tok0 : String) (exp0 : Int)
    (sched : List Bool)
    (hInit : tok0 = "" ∨ exp0 < now)
    (hTok : exch 0 ≠ "")
    (hA : (sysRun now exch ⟨⟨false, tok0, exp0, 0⟩, ⟨0, "", none⟩, ⟨0, "", none⟩⟩
            sched).tA.pc = 7)
    (hB : (sysRun now exch ⟨⟨false, tok0, exp0, 0⟩, ⟨0, "", none⟩, ⟨0, "", none⟩⟩
            sched).tB.pc = 7) :
    (sysRun now exch ⟨⟨false, tok0, exp0, 0⟩, ⟨0, "", none⟩, ⟨0, "", none⟩⟩
        sched).sh.exchCount = 1
    ∧ (sysRun now exch ⟨⟨false, tok0, exp0, 0⟩, ⟨0, "", none⟩, ⟨0, "", none⟩⟩
        sched).tA.result = some (exch 0)
    ∧ (sysRun now exch ⟨⟨false, tok0, exp0, 0⟩, ⟨0, "", none⟩, ⟨0, "", none⟩⟩
        sched).tB.result = some (exch 0) := by
  have hinv : Inv now (exch 0) tok0 exp0
      (sysRun now exch ⟨⟨false, tok0, exp0, 0⟩, ⟨0, "", none⟩, ⟨0, "", none⟩⟩
        sched) :=
    Inv_run now exch tok0 exp0 hInit hTok sched _
      (Or.inl ⟨rfl, rfl, rfl⟩)
  set f := sysRun now exch ⟨⟨false, tok0, exp0, 0⟩, ⟨0, "", none⟩, ⟨0, "", none⟩⟩
    sched with hf
  clear hf
  rcases hinv with ⟨hs, ha, hb⟩ | hside | hside
  · rw [ha] at hA
    simp at hA
  · rcases hside with ⟨hs, hw, hl⟩ | ⟨hs, hw, hl⟩ | ⟨hs, hw, hl⟩ | ⟨hs, hw, hl⟩ |
      ⟨hs, hw, hl⟩ | ⟨hw, hrest⟩
    · rw [hw] at hA; simp at hA
    · rw [hw] at hA; simp at hA
    · rw [hw] at hA; simp at hA
    · rw [hw] at hA; simp at hA
    · rw [hw] at hA; simp at hA
    · rcases hw with hw | hw
      · rw [hw] at hA; simp at hA
      · rcases hrest with ⟨hs, hl⟩ | ⟨hs, hl⟩ | ⟨hs, hl⟩ | ⟨hs, hl⟩ | ⟨hs, hl⟩
        · rw [hl] at hB; simp at hB
        · rw [hl] at hB; simp at hB
        · rw [hl] at hB; simp at hB
        · rw [hl] at hB; simp at hB
        · exact ⟨by rw [hs], by rw [hw], by rw [hl]⟩
  · rcases hside with ⟨hs, hw, hl⟩ | ⟨hs, hw, hl⟩ | ⟨hs, hw, hl⟩ | ⟨hs, hw, hl⟩ |
      ⟨hs, hw, hl⟩ | ⟨hw, hrest⟩
    · rw [hw] at hB; simp at hB
    · rw [hw] at hB; simp at hB
    · rw [hw] at hB; simp at hB
    · rw [hw] at hB; simp at hB
    · rw [hw] at hB; simp at hB
    · rcases hw with hw | hw
      · rw [hw] at hB; simp at hB
      · rcases hrest with ⟨hs, hl⟩ | ⟨hs, hl⟩ | ⟨hs, hl⟩ | ⟨hs, hl⟩ | ⟨hs, hl⟩
        · rw [hl] at hA; simp at hA
        · rw [hl] at hA; simp at hA
        · rw [hl] at hA; simp at hA
        · rw [hl] at hA; simp at hA
        · exact ⟨by rw [hs], by rw [hl], by rw [hw]⟩

/-- C9 witness: a concrete run in which caller A arrives first, performs
the single refresh, and caller B then reuses the fresh token; both end
with the same token and one exchange call. -/
theorem C9_single_refresh_same_token_witness :
    (sysRun 0 (fun _ => "T") ⟨⟨false, "", 0, 0⟩, ⟨0, "", none⟩, ⟨0, "", none⟩⟩
        [false, false, false, false, false, false, false,
         true, true, true, true]).sh.exchCount = 1
    ∧ (sysRun 0 (fun _ => "T") ⟨⟨false, "", 0, 0⟩, ⟨0, "", none⟩, ⟨0, "", none⟩⟩
        [false, false, false, false, false, false, false,
         true, true, true, true]).tA.result = some ((fun _ => "T") 0)
    ∧ (sysRun 0 (fun _ => "T") ⟨⟨false, "", 0, 0⟩, ⟨0, "", none⟩, ⟨0, "", none⟩⟩
        [false, false, false, false, false, false, false,
         true, true, true, true]).tB.result = some ((fun _ => "T") 0) :=
  C9_single_refresh_same_token 0 (fun _ => "T") "" 0
    [false, false, false, false, false, false, false, true, true, true, true]
    (Or.inl rfl) (by decide) rfl rfl

end Zube
